import Mathlib

/-!
Shallow embedding of the real-time voice session engine in `src/App.tsx`
(component `App`): the capture→encode→send pipeline
(`scriptProcessor.onaudioprocess`), the receive→decode→schedule playback
pipeline and transcript assembly (`onmessage`), interruption handling, and
the session lifecycle (`startSession` / `stopSession` / `onopen` /
`onerror` / `onclose`).

Numeric conventions: audio samples and clock times are modelled as `ℚ`
(the source works with JS doubles); `Int16Array` element assignment is
modelled by JS `ToInt16` (truncation toward zero, then wrap-around modulo
2^16 reinterpreted as signed).
-/

namespace Synchron

/-- Speaker role: the source tags transcript text and history entries with
`'user' | 'ai'`. -/
inductive Role
  | user
  | ai
deriving DecidableEq, Repr

/-- The pair of per-role transcript accumulators `{ user: string, ai: string }`,
used both for the React state `transcription` and the ref
`transcriptionRef.current`. -/
structure Transcription where
  user : String
  ai : String
deriving DecidableEq, Repr

/-- One finalized history entry `{text, role}` as pushed by the
`turnComplete` branch of `onmessage`. -/
structure TurnRecord where
  text : String
  role : Role
deriving DecidableEq, Repr

/-- The outbound payload `{ data, mimeType }` built by `onaudioprocess`.
The base64 transport encoding (`encode` in `services/geminiService.ts`, not
part of the core sources) is modelled as the identity on the quantized
int16 sample sequence. -/
structure OutboundBlob where
  data : List ℤ
  mimeType : String
deriving DecidableEq, Repr

/-- A scheduled playback source: the buffer-source node created for one
inbound chunk, with the start time passed to `source.start` and the end
time `start + audioBuffer.duration` on the output clock. -/
structure PlaybackSource where
  id : ℕ
  startTime : ℚ
  endTime : ℚ
deriving DecidableEq, Repr

/-- Session lifecycle phase (spec §4.5). The source exposes only the
boolean `isActive`; the phase is a ghost observer updated alongside the
source's transitions, used to state lifecycle claims. -/
inductive Phase
  | Idle
  | Connecting
  | Active
  | Closed
deriving DecidableEq, Repr

/-- An inbound audio part's payload, as seen by `decodeAudioData`: either
well-formed data that decodes to a buffer of the given duration (seconds),
or malformed data on which decoding fails. -/
inductive ChunkData
  | valid (duration : ℚ)
  | malformed
deriving DecidableEq, Repr

/-- The fields of a `LiveServerMessage.serverContent` that `onmessage`
inspects: audio parts (`modelTurn.parts` entries with `inlineData`),
`inputTranscription`, `outputTranscription`, `turnComplete`,
`interrupted`. -/
structure ServerMessage where
  parts : List ChunkData
  inputTranscription : Option String
  outputTranscription : Option String
  turnComplete : Bool
  interrupted : Bool
deriving DecidableEq, Repr

/-! ## AudioCaptureEncoder: `scriptProcessor.onaudioprocess` -/

/-- `Math.max(-1, Math.min(1, y))`. -/
def clampUnit (y : ℚ) : ℚ := max (-1) (min 1 y)

/-- Truncation toward zero of a rational, as JS integer conversion does on
a double. -/
def qtrunc (q : ℚ) : ℤ := if 0 ≤ q then ⌊q⌋ else ⌈q⌉

/-- JS `ToInt16`: wrap an integer into the signed 16-bit range modulo
2^16, as assignment into an `Int16Array` does. -/
def toInt16 (n : ℤ) : ℤ := (n + 32768) % 65536 - 32768

/-- One sample of the capture encoder:
`int16[i] = Math.max(-1, Math.min(1, inputData[i] * 0.9)) * 32767`.
The 0.9 factor is the headroom multiplier; the result of the double
computation is converted by `ToInt16`. -/
def encodeSample (x : ℚ) : ℤ := toInt16 (qtrunc (clampUnit (x * (9/10)) * 32767))

/-- The whole capture frame `inputData` quantized sample by sample into
the `Int16Array`. -/
def encodeFrame (frame : List ℚ) : List ℤ := frame.map encodeSample

/-! ## Application state

All mutable pieces of the component that the core logic touches: React
state (`isActive`, `transcription`, `history`), refs (`liveSession`,
`nextStartTime`, `sources`, `transcriptionRef`), the capture/channel
wiring established in `onopen`, plus ghost observation logs (started
sources, stopped sources, emitted turn records, sent blobs, connection
attempts, teardown count) recording the calls the component makes on its
collaborators. -/
structure AppState where
  isActive : Bool
  transcription : Transcription
  history : List TurnRecord
  liveSession : Bool
  nextStartTime : ℚ
  sources : List ℕ
  transcriptionRef : Transcription
  scriptProcessorConnected : Bool
  sessionResolved : Bool
  phase : Phase
  nextSourceId : ℕ
  started : List PlaybackSource
  stoppedLog : List ℕ
  emittedRecords : List TurnRecord
  sentBlobs : List OutboundBlob
  connectAttempts : ℕ
  stopCount : ℕ
deriving DecidableEq, Repr

/-- The component's initial state: `isActive = false`, empty
transcription and history, `nextStartTime = 0`, empty `sources` set, no
capture wiring, no session. -/
def initialState : AppState where
  isActive := false
  transcription := ⟨"", ""⟩
  history := []
  liveSession := false
  nextStartTime := 0
  sources := []
  transcriptionRef := ⟨"", ""⟩
  scriptProcessorConnected := false
  sessionResolved := false
  phase := Phase.Idle
  nextSourceId := 0
  started := []
  stoppedLog := []
  emittedRecords := []
  sentBlobs := []
  connectAttempts := 0
  stopCount := 0

/-! ## SessionController: `stopSession`, `startSession`, channel callbacks -/

/-- `stopSession`: set `isActive` false, close and null the live session,
`sources.current.forEach(s => s.stop())` (best-effort stops, logged),
`sources.current.clear()`, `nextStartTime.current = 0`, clear both the
`transcription` state and `transcriptionRef`. Note what it does NOT do:
it never touches `history`, and it does not disconnect the
`scriptProcessor` or stop the media stream, so the capture wiring
survives. `stopCount` is a ghost counter of teardown executions. -/
def stopSession (s : AppState) : AppState :=
  { s with
    isActive := false
    liveSession := false
    stoppedLog := s.stoppedLog ++ s.sources
    sources := []
    nextStartTime := 0
    transcription := ⟨"", ""⟩
    transcriptionRef := ⟨"", ""⟩
    phase := Phase.Closed
    stopCount := s.stopCount + 1 }

/-- `startSession`: `if (isActive) { stopSession(); return; }` — the guard
reads only the `isActive` boolean. Otherwise a new connection attempt is
made (audio contexts lazily initialized, `getUserMedia`,
`ai.live.connect`), which the model records as one more
`connectAttempts`; the session is now connecting, not yet open. -/
def startSession (s : AppState) : AppState :=
  if s.isActive then stopSession s
  else
    { s with
      phase := Phase.Connecting
      connectAttempts := s.connectAttempts + 1 }

/-- The `onopen` callback: `setIsActive(true)`, create the media-stream
source and `scriptProcessor`, install `onaudioprocess` and connect the
nodes; the `sessionPromise` resolves to the session object, which
`startSession` also stores in `liveSession.current`. -/
def onopen (s : AppState) : AppState :=
  { s with
    isActive := true
    scriptProcessorConnected := true
    sessionResolved := true
    liveSession := true
    phase := Phase.Active }

/-- The `onerror` callback: log, then `stopSession()`. -/
def onerror (s : AppState) : AppState := stopSession s

/-- The `onclose` callback: `setIsActive(false)` only. -/
def onclose (s : AppState) : AppState :=
  { s with isActive := false, phase := Phase.Closed }

/-- One `onaudioprocess` invocation on a delivered capture frame. The
callback runs as long as the `scriptProcessor` graph built in `onopen`
stays connected (nothing ever disconnects it); it quantizes the frame,
builds the `pcmBlob`, and `sessionPromise.then(session => if (session)
session.sendRealtimeInput({ media: pcmBlob }))` hands it to the resolved
session — the resolved session object stays non-null regardless of
`liveSession.current`. -/
def onaudioprocess (s : AppState) (frame : List ℚ) : AppState :=
  if s.scriptProcessorConnected && s.sessionResolved then
    { s with
      sentBlobs := s.sentBlobs ++ [⟨encodeFrame frame, "audio/pcm;rate=16000"⟩] }
  else s

/-! ## PlaybackScheduler: the audio-part branch of `onmessage` -/

/-- `decodeAudioData` lives in `services/geminiService.ts`, outside the
core sources. Modelled from the spec: decoding a well-formed chunk yields
a buffer whose `duration` the scheduler reads; decoding a malformed chunk
raises `DecodePlaybackError` (the awaited promise rejects). -/
def decodeAudioData : ChunkData → Option ℚ
  | ChunkData.valid d => some d
  | ChunkData.malformed => none

/-- Processing one audio part at output-clock reading `now`
(`outCtx.currentTime`):
`nextStartTime.current = Math.max(nextStartTime.current, outCtx.currentTime)`
happens first; then `await decodeAudioData(...)` — if it rejects, the
handler aborts here with the bump retained and nothing scheduled.  On
success a buffer source is created, `source.start(nextStartTime.current)`
is issued (recorded in the `started` log with its end time), and
`nextStartTime.current += audioBuffer.duration`.  The following statement
`sources.add(source)` throws a `TypeError` — `sources` is the React ref
object, which has no `add` method (every other use goes through
`sources.current`) — so the source is never inserted into the active set
and the rest of the handler is skipped; the ref mutations made up to that
point persist. -/
def handleAudioPart (s : AppState) (now : ℚ) (c : ChunkData) : AppState :=
  let s1 : AppState := { s with nextStartTime := max s.nextStartTime now }
  match decodeAudioData c with
  | none => s1
  | some dur =>
      { s1 with
        started := s1.started ++ [⟨s1.nextSourceId, s1.nextStartTime, s1.nextStartTime + dur⟩]
        nextSourceId := s1.nextSourceId + 1
        nextStartTime := s1.nextStartTime + dur }

/-- The `for (const part of parts)` loop. Every audio part ends in a
thrown exception (`DecodePlaybackError` from the rejected decode, or the
`TypeError` at `sources.add`), so the loop never reaches a second audio
part; the boolean records whether an exception aborted the handler. -/
def processParts (s : AppState) (now : ℚ) : List ChunkData → AppState × Bool
  | [] => (s, false)
  | c :: _ => (handleAudioPart s now c, true)

/-- The `'ended'` listener of a source: `sources.current.delete(source)`
on natural end of playback. -/
def onSourceEnded (s : AppState) (id : ℕ) : AppState :=
  { s with sources := s.sources.erase id }

/-! ## TranscriptAssembler: the text branches of `onmessage` -/

/-- `inputTranscription` branch: `transcriptionRef.current.user += text`
and `setTranscription(prev => ({ ...prev, user: prev.user + text }))`. -/
def applyInputTranscript (s : AppState) : Option String → AppState
  | none => s
  | some t =>
      { s with
        transcriptionRef := ⟨s.transcriptionRef.user ++ t, s.transcriptionRef.ai⟩
        transcription := ⟨s.transcription.user ++ t, s.transcription.ai⟩ }

/-- `outputTranscription` branch: `transcriptionRef.current.ai += text`
and `setTranscription({ user: '', ai: transcriptionRef.current.ai })` —
the displayed line becomes the assistant text and the displayed user line
is blanked. -/
def applyOutputTranscript (s : AppState) : Option String → AppState
  | none => s
  | some t =>
      { s with
        transcriptionRef := ⟨s.transcriptionRef.user, s.transcriptionRef.ai ++ t⟩
        transcription := ⟨"", s.transcriptionRef.ai ++ t⟩ }

/-- The `newEntries` array built in the `turnComplete` branch: one record
per non-empty accumulator, user first, assistant second (JS truthiness:
only the empty string is falsy). -/
def emittedOnTurnComplete (s : AppState) : List TurnRecord :=
  (if s.transcriptionRef.user ≠ "" then [⟨s.transcriptionRef.user, Role.user⟩] else [])
    ++ (if s.transcriptionRef.ai ≠ "" then [⟨s.transcriptionRef.ai, Role.ai⟩] else [])

/-- JS `array.slice(-2)`: the suffix of the last two elements (the whole
array when it is shorter). -/
def sliceLast2 (l : List TurnRecord) : List TurnRecord := l.drop (l.length - 2)

/-- `turnComplete` branch:
`setHistory(prev => [...prev, ...newEntries].slice(-2))`, then clear both
the `transcription` state and `transcriptionRef`. `emittedRecords` is the
ghost log of every `TurnRecord` ever emitted. -/
def handleTurnComplete (s : AppState) : AppState :=
  { s with
    history := sliceLast2 (s.history ++ emittedOnTurnComplete s)
    emittedRecords := s.emittedRecords ++ emittedOnTurnComplete s
    transcription := ⟨"", ""⟩
    transcriptionRef := ⟨"", ""⟩ }

/-! ## InterruptionHandler: the `interrupted` branch of `onmessage` -/

/-- `interrupted` branch: `sources.current.forEach(s => s.stop())`
(best-effort, errors swallowed; the stopped ids are logged),
`sources.current.clear()`, `nextStartTime.current = 0`. Nothing else is
touched: in particular neither `transcription`, `transcriptionRef`,
`history` nor `isActive`. -/
def handleInterrupted (s : AppState) : AppState :=
  { s with
    stoppedLog := s.stoppedLog ++ s.sources
    sources := []
    nextStartTime := 0 }

/-- The whole `onmessage` callback at output-clock reading `now`. When an
audio part throws (every audio part does), the remainder of the handler —
the transcription, `turnComplete` and `interrupted` branches of the same
message — is skipped; otherwise the branches run in source order. -/
def onmessage (s : AppState) (now : ℚ) (m : ServerMessage) : AppState :=
  let p := processParts s now m.parts
  if p.2 then p.1
  else
    let s1 := applyInputTranscript p.1 m.inputTranscription
    let s2 := applyOutputTranscript s1 m.outputTranscription
    let s3 := if m.turnComplete then handleTurnComplete s2 else s2
    if m.interrupted then handleInterrupted s3 else s3

/-- Fold `onmessage` over a sequence of inbound messages, each tagged with
the output-clock reading at which it is handled. -/
def processMessages (s : AppState) (ms : List (ℚ × ServerMessage)) : AppState :=
  ms.foldl (fun st p => onmessage st p.1 p.2) s

/-- A message carrying a single inbound audio part. -/
def audioMsg (c : ChunkData) : ServerMessage := ⟨[c], none, none, false, false⟩

/-- A message carrying one user-speech transcript delta. -/
def userDeltaMsg (t : String) : ServerMessage := ⟨[], some t, none, false, false⟩

/-- A message carrying one assistant-speech transcript delta. -/
def aiDeltaMsg (t : String) : ServerMessage := ⟨[], none, some t, false, false⟩

/-- A bare `turnComplete` message. -/
def turnCompleteMsg : ServerMessage := ⟨[], none, none, true, false⟩

/-- A bare `interrupted` message. -/
def interruptedMsg : ServerMessage := ⟨[], none, none, false, true⟩

/-- The state right after a successful start: `startSession` from the
initial state followed by the channel's `onopen`. -/
def openState : AppState := onopen (startSession initialState)

/-! ## Helper lemmas -/

lemma neg_one_le_clampUnit (y : ℚ) : -1 ≤ clampUnit y := le_max_left _ _

lemma clampUnit_le_one (y : ℚ) : clampUnit y ≤ 1 :=
  max_le (by norm_num) (min_le_left _ _)

lemma qtrunc_bounds {q : ℚ} (h1 : -32767 ≤ q) (h2 : q ≤ 32767) :
    -32767 ≤ qtrunc q ∧ qtrunc q ≤ 32767 := by
  unfold qtrunc
  split_ifs with h
  · have hlo : (0 : ℤ) ≤ ⌊q⌋ := Int.floor_nonneg.mpr h
    have hhi : ⌊q⌋ < 32768 := Int.floor_lt.mpr (by push_cast; linarith)
    omega
  · have hlo : (-32768 : ℤ) < ⌈q⌉ := Int.lt_ceil.mpr (by push_cast; linarith)
    have hhi : ⌈q⌉ ≤ 32767 := Int.ceil_le.mpr (by push_cast; linarith)
    omega

lemma toInt16_eq_self {n : ℤ} (h1 : -32768 ≤ n) (h2 : n ≤ 32767) :
    toInt16 n = n := by
  unfold toInt16
  rw [Int.emod_eq_of_lt (by omega) (by omega)]
  omega

lemma encodeSample_bounds (x : ℚ) :
    -32767 ≤ encodeSample x ∧ encodeSample x ≤ 32767 := by
  unfold encodeSample
  have hc1 := neg_one_le_clampUnit (x * (9/10))
  have hc2 := clampUnit_le_one (x * (9/10))
  have hq := qtrunc_bounds (q := clampUnit (x * (9/10)) * 32767)
    (by nlinarith) (by nlinarith)
  rw [toInt16_eq_self (by omega) (by omega)]
  exact hq

lemma encodeSample_one : encodeSample 1 = 29490 := by
  norm_num [encodeSample, clampUnit, qtrunc, toInt16, Int.floor_eq_iff]

lemma encodeSample_neg_one : encodeSample (-1) = -29490 := by
  unfold encodeSample clampUnit qtrunc toInt16
  norm_num
  have hc : (⌈(-(294903/10) : ℚ)⌉ : ℤ) = -29490 := by
    rw [Int.ceil_eq_iff]
    constructor <;> norm_num
  rw [hc]
  decide

lemma onmessage_audioMsg (s : AppState) (now : ℚ) (c : ChunkData) :
    onmessage s now (audioMsg c) = handleAudioPart s now c := by
  simp [onmessage, processParts, audioMsg]

lemma handleAudioPart_valid (s : AppState) (now d : ℚ) :
    handleAudioPart s now (ChunkData.valid d)
      = { s with
          started := s.started
            ++ [⟨s.nextSourceId, max s.nextStartTime now, max s.nextStartTime now + d⟩]
          nextSourceId := s.nextSourceId + 1
          nextStartTime := max s.nextStartTime now + d } := by
  simp [handleAudioPart, decodeAudioData]

lemma handleAudioPart_malformed (s : AppState) (now : ℚ) :
    handleAudioPart s now ChunkData.malformed
      = { s with nextStartTime := max s.nextStartTime now } := by
  simp [handleAudioPart, decodeAudioData]

/-! ## Claims -/

/-- C1: for every inbound audio chunk, the scheduler computes
`startTime = max(nextStartTime, outputClock.now())`, starts the buffer
exactly at `startTime`, and then sets `nextStartTime = startTime +
duration`; for the inbound sequence [audio(0.5 s), audio(0.3 s)] with
`nextStartTime` initially 0 and the clock at t = 10, the first chunk
plays over [10, 10.5] and the second over [10.5, 10.8], back-to-back. -/
theorem C1_gapless_scheduling :
    (∀ (s : AppState) (now d : ℚ),
      (handleAudioPart s now (ChunkData.valid d)).started
          = s.started
            ++ [⟨s.nextSourceId, max s.nextStartTime now, max s.nextStartTime now + d⟩]
        ∧ (handleAudioPart s now (ChunkData.valid d)).nextStartTime
          = max s.nextStartTime now + d)
    ∧ (processMessages initialState
        [(10, audioMsg (ChunkData.valid (1/2))), (10, audioMsg (ChunkData.valid (3/10)))]).started
        = [⟨0, 10, 21/2⟩, ⟨1, 21/2, 54/5⟩] := by
  constructor
  · intro s now d
    rw [handleAudioPart_valid]
    exact ⟨rfl, rfl⟩
  · norm_num [processMessages, onmessage_audioMsg, handleAudioPart, initialState,
      decodeAudioData]

/-- C2: every encoded capture sample is headroom-scaled by 0.9, clamped
to [-1, 1] and quantized to a signed 16-bit value, so every output
sample lies in the PCM16 range for any input; a max-amplitude sample
encodes to a value within 1 LSB of ±32767·0.9. -/
theorem C2_pcm16_range_headroom :
    (∀ frame : List ℚ, ∀ y ∈ encodeFrame frame, -32768 ≤ y ∧ y ≤ 32767)
    ∧ |(encodeSample 1 : ℚ) - 32767 * (9/10)| ≤ 1
    ∧ |(encodeSample (-1) : ℚ) + 32767 * (9/10)| ≤ 1 := by
  refine ⟨?_, ?_, ?_⟩
  · intro frame y hy
    simp only [encodeFrame, List.mem_map] at hy
    obtain ⟨x, -, rfl⟩ := hy
    have h := encodeSample_bounds x
    exact ⟨by omega, h.2⟩
  · rw [encodeSample_one]; norm_num [abs_le]
  · rw [encodeSample_neg_one]; norm_num [abs_le]

/-- Witness for C2 at the one-sample frame `[1]`. -/
theorem C2_pcm16_range_headroom_witness :
    -32768 ≤ encodeSample 1 ∧ encodeSample 1 ≤ 32767 :=
  C2_pcm16_range_headroom.1 [1] (encodeSample 1) (by simp [encodeFrame])

/-- C5: `nextStartTime` is monotonically non-decreasing across any
sequence of scheduled chunks within one uninterrupted session segment,
and it equals 0 immediately after the flush performed on interruption or
session stop. -/
theorem C5_nextStartTime_monotone :
    (∀ (s : AppState) (l : List (ℚ × ℚ)),
      (∀ p ∈ l, 0 ≤ p.2) →
      s.nextStartTime
        ≤ (processMessages s
            (l.map (fun p => (p.1, audioMsg (ChunkData.valid p.2))))).nextStartTime)
    ∧ (∀ s : AppState, (handleInterrupted s).nextStartTime = 0)
    ∧ (∀ s : AppState, (stopSession s).nextStartTime = 0) := by
  refine ⟨?_, fun s => rfl, fun s => rfl⟩
  intro s l
  induction l generalizing s with
  | nil => intro _; exact le_refl _
  | cons p l ih =>
    intro h
    have hstep : s.nextStartTime
        ≤ (onmessage s p.1 (audioMsg (ChunkData.valid p.2))).nextStartTime := by
      rw [onmessage_audioMsg, handleAudioPart_valid]
      have h1 : s.nextStartTime ≤ max s.nextStartTime p.1 := le_max_left _ _
      have h2 : 0 ≤ p.2 := h p (List.mem_cons_self _ _)
      simpa using le_trans h1 (by linarith)
    have htail := ih (onmessage s p.1 (audioMsg (ChunkData.valid p.2)))
      (fun q hq => h q (List.mem_cons_of_mem _ hq))
    calc s.nextStartTime
        ≤ (onmessage s p.1 (audioMsg (ChunkData.valid p.2))).nextStartTime := hstep
      _ ≤ _ := htail

/-- The `interrupted` message triggers exactly the `interrupted` branch. -/
lemma onmessage_interruptedMsg (s : AppState) (now : ℚ) :
    onmessage s now interruptedMsg = handleInterrupted s := by
  simp [onmessage, processParts, interruptedMsg, applyInputTranscript,
    applyOutputTranscript]

/-- JS `slice(-2)` keeps at most two entries. -/
lemma sliceLast2_length_le (l : List TurnRecord) : (sliceLast2 l).length ≤ 2 := by
  simp only [sliceLast2, List.length_drop]
  omega

/-- C3 counterexample: after inbound [user-delta("Wait"), interrupted]
from the post-open state, the user accumulator still holds "Wait" — the
`interrupted` branch never clears the accumulators — even though zero
TurnRecords were emitted. -/
theorem C3_interrupted_clear_counterexample :
    (processMessages openState
        [(0, userDeltaMsg "Wait"), (0, interruptedMsg)]).transcriptionRef.user = "Wait"
    ∧ "Wait" ≠ ""
    ∧ (processMessages openState
        [(0, userDeltaMsg "Wait"), (0, interruptedMsg)]).emittedRecords = [] := by
  refine ⟨?_, by decide, ?_⟩ <;>
    simp [processMessages, onmessage, processParts, userDeltaMsg, interruptedMsg,
      applyInputTranscript, applyOutputTranscript, handleInterrupted, openState,
      onopen, startSession, initialState]

/-- C3 (amended): on an inbound `interrupted` event no TurnRecord is
emitted for the in-flight turn, but both per-role accumulators are left
unchanged rather than cleared; after [user-delta("Wait"), interrupted]
the user accumulator still holds "Wait" and zero TurnRecords have been
emitted. -/
theorem C3_interrupted_amended :
    (∀ (s : AppState) (now : ℚ),
      (onmessage s now interruptedMsg).transcriptionRef = s.transcriptionRef
        ∧ (onmessage s now interruptedMsg).transcription = s.transcription
        ∧ (onmessage s now interruptedMsg).emittedRecords = s.emittedRecords)
    ∧ (processMessages openState
        [(0, userDeltaMsg "Wait"), (0, interruptedMsg)]).transcriptionRef.user = "Wait"
    ∧ (processMessages openState
        [(0, userDeltaMsg "Wait"), (0, interruptedMsg)]).emittedRecords = [] := by
  refine ⟨?_, ?_, ?_⟩
  · intro s now
    rw [onmessage_interruptedMsg]
    exact ⟨rfl, rfl, rfl⟩
  all_goals
    simp [processMessages, onmessage, processParts, userDeltaMsg, interruptedMsg,
      applyInputTranscript, applyOutputTranscript, handleInterrupted, openState,
      onopen, startSession, initialState]

/-- C4: the code at the failing input. For every scheduled chunk the
active-sources set is left unchanged — `sources.add(source)` addresses
the ref object instead of `sources.current` and throws — so after a
0.5 s chunk at clock 10 a buffer is scheduled/playing over [10, 10.5]
while the active set is still empty, violating the claimed invariant. -/
theorem C4_scheduled_source_never_registered :
    (∀ (s : AppState) (now d : ℚ),
      (handleAudioPart s now (ChunkData.valid d)).sources = s.sources)
    ∧ (handleAudioPart openState 10 (ChunkData.valid (1/2))).started
        = [⟨0, 10, 21/2⟩]
    ∧ (handleAudioPart openState 10 (ChunkData.valid (1/2))).sources = [] := by
  refine ⟨?_, ?_, ?_⟩
  · intro s now d
    rw [handleAudioPart_valid]
  · norm_num [handleAudioPart, decodeAudioData, openState, onopen, startSession,
      initialState]
  · rw [handleAudioPart_valid]
    rfl

/-- C6: on turn-complete a TurnRecord is emitted per non-empty
accumulator (the records of `emittedOnTurnComplete`), the records are
appended to the history which is truncated to its last two entries
(oldest evicted first) and so never exceeds length 2, and both
accumulators are cleared; the scenario [assistant-delta("Hello"),
assistant-delta(" there"), turn-complete] emits exactly
TurnRecord{"Hello there", ai} and leaves the accumulators empty, and a
turn completing with both accumulators non-empty on a full history
evicts the two oldest records. -/
theorem C6_turn_complete_emission :
    (∀ s : AppState,
      (handleTurnComplete s).emittedRecords = s.emittedRecords ++ emittedOnTurnComplete s
        ∧ (handleTurnComplete s).history = sliceLast2 (s.history ++ emittedOnTurnComplete s)
        ∧ (handleTurnComplete s).history.length ≤ 2
        ∧ (handleTurnComplete s).transcriptionRef = ⟨"", ""⟩
        ∧ (handleTurnComplete s).transcription = ⟨"", ""⟩)
    ∧ (processMessages openState
        [(0, aiDeltaMsg "Hello"), (0, aiDeltaMsg " there"), (0, turnCompleteMsg)]).emittedRecords
        = [⟨"Hello there", Role.ai⟩]
    ∧ (processMessages openState
        [(0, aiDeltaMsg "Hello"), (0, aiDeltaMsg " there"), (0, turnCompleteMsg)]).transcriptionRef
        = ⟨"", ""⟩
    ∧ (handleTurnComplete
        { openState with
            transcriptionRef := ⟨"u", "a"⟩
            history := [⟨"h1", Role.user⟩, ⟨"h2", Role.ai⟩] }).history
        = [⟨"u", Role.user⟩, ⟨"a", Role.ai⟩] := by
  refine ⟨fun s => ⟨rfl, rfl, sliceLast2_length_le _, rfl, rfl⟩, ?_, ?_, ?_⟩
  all_goals
    simp [processMessages, onmessage, processParts, aiDeltaMsg, turnCompleteMsg,
      applyInputTranscript, applyOutputTranscript, handleTurnComplete,
      emittedOnTurnComplete, sliceLast2, openState, onopen, startSession,
      initialState]

/-- C10: processing an inbound `interrupted` event mutates only playback
state — it stops every source in the active set, clears the set and
resets `nextStartTime` to 0 — while the active status, the finalized
history and every other component are unchanged; in particular the
session stays active across an interruption. -/
theorem C10_interrupted_only_playback :
    (∀ (s : AppState) (now : ℚ),
      (onmessage s now interruptedMsg).isActive = s.isActive
        ∧ (onmessage s now interruptedMsg).history = s.history
        ∧ (onmessage s now interruptedMsg).transcription = s.transcription
        ∧ (onmessage s now interruptedMsg).transcriptionRef = s.transcriptionRef
        ∧ (onmessage s now interruptedMsg).liveSession = s.liveSession
        ∧ (onmessage s now interruptedMsg).phase = s.phase
        ∧ (onmessage s now interruptedMsg).scriptProcessorConnected
            = s.scriptProcessorConnected
        ∧ (onmessage s now interruptedMsg).sessionResolved = s.sessionResolved
        ∧ (onmessage s now interruptedMsg).emittedRecords = s.emittedRecords
        ∧ (onmessage s now interruptedMsg).sentBlobs = s.sentBlobs
        ∧ (onmessage s now interruptedMsg).sources = []
        ∧ (onmessage s now interruptedMsg).nextStartTime = 0
        ∧ (onmessage s now interruptedMsg).stoppedLog = s.stoppedLog ++ s.sources)
    ∧ (onmessage openState 0 interruptedMsg).isActive = true := by
  constructor
  · intro s now
    rw [onmessage_interruptedMsg]
    exact ⟨rfl, rfl, rfl, rfl, rfl, rfl, rfl, rfl, rfl, rfl, rfl, rfl, rfl⟩
  · rw [onmessage_interruptedMsg]
    rfl

/-- C7 counterexample: a start request while Connecting (start issued,
channel not yet open, so `isActive` is still false) does not stop — it
initiates a second connection attempt with no teardown; and even the
Active-state stop leaves the capture subscription connected. -/
theorem C7_toggle_while_connecting_counterexample :
    (startSession initialState).phase = Phase.Connecting
    ∧ (startSession initialState).isActive = false
    ∧ (startSession (startSession initialState)).connectAttempts = 2
    ∧ (startSession (startSession initialState)).stopCount = 0
    ∧ (stopSession openState).scriptProcessorConnected = true :=
  ⟨rfl, rfl, rfl, rfl, rfl⟩

/-- C7 (amended): the start control is a toggle only in the Active state:
when `isActive` is true a start request runs the full stop (close
channel, flush playback, reset clock, clear transcript — though the
capture subscription is left attached); when `isActive` is false — which
includes the Connecting state — a start request initiates another
connection attempt and performs no teardown. -/
theorem C7_toggle_amended :
    (∀ s : AppState, s.isActive = true →
      startSession s = stopSession s
        ∧ (startSession s).liveSession = false
        ∧ (startSession s).sources = []
        ∧ (startSession s).nextStartTime = 0
        ∧ (startSession s).transcription = ⟨"", ""⟩
        ∧ (startSession s).transcriptionRef = ⟨"", ""⟩
        ∧ (startSession s).scriptProcessorConnected = s.scriptProcessorConnected)
    ∧ (∀ s : AppState, s.isActive = false →
        (startSession s).connectAttempts = s.connectAttempts + 1
          ∧ (startSession s).stopCount = s.stopCount
          ∧ (startSession s).phase = Phase.Connecting) := by
  constructor
  · intro s h
    have he : startSession s = stopSession s := by simp [startSession, h]
    refine ⟨he, ?_, ?_, ?_, ?_, ?_, ?_⟩ <;> rw [he] <;> rfl
  · intro s h
    simp [startSession, h]

/-- Witness for C7 (amended) at the opened state and the initial state. -/
theorem C7_toggle_amended_witness :
    startSession openState = stopSession openState
    ∧ (startSession initialState).connectAttempts = initialState.connectAttempts + 1 :=
  ⟨(C7_toggle_amended.1 openState rfl).1, (C7_toggle_amended.2 initialState rfl).1⟩

/-- C8 counterexample: a capture frame delivered right after
`stopSession` on an open session is still encoded and handed to the
session's send — the blob list grows, while the claim requires that no
such frame be encoded or sent. -/
theorem C8_capture_after_stop_counterexample :
    (onaudioprocess (stopSession openState) [1]).sentBlobs
        = [⟨encodeFrame [1], "audio/pcm;rate=16000"⟩]
    ∧ (onaudioprocess (stopSession openState) [1]).sentBlobs ≠ [] := by
  have h1 : (onaudioprocess (stopSession openState) [1]).sentBlobs
      = [⟨encodeFrame [1], "audio/pcm;rate=16000"⟩] := rfl
  refine ⟨h1, ?_⟩
  rw [h1]
  simp

/-- C8 (amended): `stopSession` does not detach the capture subscription
— the `scriptProcessor` wiring and the resolved session survive the stop
— so capture callbacks keep being processed and each frame delivered
after stop is still encoded and handed to `sendRealtimeInput`. -/
theorem C8_capture_not_detached_amended :
    (∀ s : AppState,
      (stopSession s).scriptProcessorConnected = s.scriptProcessorConnected
        ∧ (stopSession s).sessionResolved = s.sessionResolved)
    ∧ (∀ (s : AppState) (frame : List ℚ),
        s.scriptProcessorConnected = true → s.sessionResolved = true →
        (onaudioprocess (stopSession s) frame).sentBlobs
          = s.sentBlobs ++ [⟨encodeFrame frame, "audio/pcm;rate=16000"⟩]) := by
  refine ⟨fun s => ⟨rfl, rfl⟩, ?_⟩
  intro s frame h1 h2
  simp [onaudioprocess, stopSession, h1, h2]

/-- Witness for C8 (amended) at the opened state and the frame `[1]`. -/
theorem C8_capture_not_detached_amended_witness :
    (onaudioprocess (stopSession openState) [1]).sentBlobs
      = openState.sentBlobs ++ [⟨encodeFrame [1], "audio/pcm;rate=16000"⟩] :=
  C8_capture_not_detached_amended.2 openState [1] rfl rfl

/-- C9 counterexample: a malformed chunk arriving with `nextStartTime` 0
and the clock at 10 leaves `nextStartTime` equal to 10, not to its value
before the chunk was processed — the max-bump precedes the failing
decode. -/
theorem C9_decode_failure_counterexample :
    (handleAudioPart initialState 10 ChunkData.malformed).nextStartTime = 10
    ∧ initialState.nextStartTime = 0
    ∧ (10 : ℚ) ≠ 0 := by
  refine ⟨?_, rfl, by norm_num⟩
  rw [handleAudioPart_malformed]
  norm_num [initialState]

/-- C9 (amended): on a failed decode the chunk is dropped (nothing
scheduled, active set unchanged) and the session keeps processing later
chunks, but `nextStartTime` is advanced to max(previous, clock now)
before the decode rather than left exactly unchanged; no gap results:
any later chunk is scheduled exactly as if the malformed chunk had never
arrived. -/
theorem C9_decode_failure_amended :
    ∀ (s : AppState) (now : ℚ),
      (handleAudioPart s now ChunkData.malformed).started = s.started
        ∧ (handleAudioPart s now ChunkData.malformed).sources = s.sources
        ∧ (handleAudioPart s now ChunkData.malformed).nextStartTime
            = max s.nextStartTime now
        ∧ ∀ now' : ℚ, now ≤ now' →
            ∀ d : ℚ,
              (handleAudioPart (handleAudioPart s now ChunkData.malformed) now'
                  (ChunkData.valid d)).started
                = s.started
                  ++ [⟨s.nextSourceId, max s.nextStartTime now',
                        max s.nextStartTime now' + d⟩] := by
  intro s now
  have hmal := handleAudioPart_malformed s now
  refine ⟨by rw [hmal], by rw [hmal], by rw [hmal], ?_⟩
  intro now' h d
  have hmax : max (max s.nextStartTime now) now' = max s.nextStartTime now' := by
    rw [max_assoc, max_eq_right h]
  rw [hmal, handleAudioPart_valid]
  simp [hmax]

/-- Witness for C9 (amended) at the initial state, clock 10 for both the
malformed and the following 0.5 s chunk. -/
theorem C9_decode_failure_amended_witness :
    (handleAudioPart (handleAudioPart initialState 10 ChunkData.malformed) 10
        (ChunkData.valid (1/2))).started
      = initialState.started
        ++ [⟨initialState.nextSourceId, max initialState.nextStartTime 10,
              max initialState.nextStartTime 10 + 1/2⟩] :=
  (C9_decode_failure_amended initialState 10).2.2.2 10 le_rfl (1/2)

/-- Witness for C5 at the one-chunk schedule [(now = 10, duration = 0.5)]
from the initial state. -/
theorem C5_nextStartTime_monotone_witness :
    initialState.nextStartTime
      ≤ (processMessages initialState
          ([((10 : ℚ), (1/2 : ℚ))].map
            (fun p => (p.1, audioMsg (ChunkData.valid p.2))))).nextStartTime
    ∧ (handleInterrupted initialState).nextStartTime = 0
    ∧ (stopSession initialState).nextStartTime = 0 :=
  ⟨C5_nextStartTime_monotone.1 initialState [((10 : ℚ), (1/2 : ℚ))] (by norm_num),
   C5_nextStartTime_monotone.2.1 initialState,
   C5_nextStartTime_monotone.2.2 initialState⟩

end Synchron
